import Mathlib

/-!
Verification development for the gramps-webapi authentication and task
subsystem.  The task-status endpoint is embedded from
`gramps_webapi/api/resources/tasks.py`; the authentication core
(CredentialStore, TokenCodec, TokenIssuer, TokenRefresher, PrivacyFilter)
is absent from the source tree (only its tests are present), so those
components are modelled from the specification text.
-/

/-- Modelled from the spec: the ordered role enumeration
`guest < contributor < owner` (CredentialStore / Role data model,
missing from the source tree). -/
inductive Role where
  | guest
  | contributor
  | owner
  deriving DecidableEq, Repr

/-- Modelled from the spec: the total order on roles, given by a rank.
Role comparison is by this rank, never by string comparison. -/
def roleRank : Role → Nat
  | Role.guest => 0
  | Role.contributor => 1
  | Role.owner => 2

/-- Modelled from the spec: token kind tag, `access` or `refresh`
(TokenCodec data model, missing from the source tree). -/
inductive TokenKind where
  | access
  | refresh
  deriving DecidableEq, Repr

/-- Error taxonomy of section 7 of the spec, plus the CredentialStore
level `InvalidCredentials` kept separate below. -/
inductive ApiError where
  | malformedRequest
  | authenticationFailed
  | missingCredential
  | wrongTokenType
  | tokenInvalid
  | tokenExpired
  | notFound
  deriving DecidableEq, Repr

/-- HTTP status each error kind is surfaced as (section 7 table). -/
def errorStatus : ApiError → Nat
  | ApiError.malformedRequest => 422
  | ApiError.authenticationFailed => 403
  | ApiError.missingCredential => 401
  | ApiError.wrongTokenType => 422
  | ApiError.tokenInvalid => 401
  | ApiError.tokenExpired => 401
  | ApiError.notFound => 404

/-- Modelled from the spec: the decoded payload of a bearer token:
subject identity, role, kind, issue time and expiry time. -/
structure TokenPayload where
  subject : String
  role : Role
  kind : TokenKind
  issuedAt : Nat
  expiresAt : Nat
  deriving DecidableEq, Repr

/-- Modelled from the spec: the wire form of a token: either a payload
signed with some secret, or a malformed string.  A signature made with a
different secret fails validation in `TokenCodec.decode`. -/
inductive TokenString where
  | signed (secret : Nat) (payload : TokenPayload)
  | malformed (raw : String)
  deriving DecidableEq, Repr

/-- Modelled from the spec: codec configuration: the signing secret and
the two ttl values (configuration inputs, not hardcoded). -/
structure Codec where
  secret : Nat
  accessTtl : Nat
  refreshTtl : Nat
  deriving Repr

namespace TokenCodec

/-- Modelled from the spec: `encode(subject, role, kind, ttl)` produces a
signed self-contained token with expiry = issue time + ttl (TokenCodec,
missing from the source tree). -/
def encode (c : Codec) (subject : String) (role : Role) (kind : TokenKind)
    (now ttl : Nat) : TokenString :=
  TokenString.signed c.secret
    { subject := subject, role := role, kind := kind,
      issuedAt := now, expiresAt := now + ttl }

/-- Modelled from the spec: `decode(token_string)` yields the payload, or
fails with `TokenInvalid` (bad signature or malformed payload) or
`TokenExpired` (valid signature, expiry not in the future). -/
def decode (c : Codec) (now : Nat) (ts : TokenString) :
    Except ApiError TokenPayload :=
  match ts with
  | TokenString.malformed _ => Except.error ApiError.tokenInvalid
  | TokenString.signed sec p =>
      if sec = c.secret then
        if now < p.expiresAt then Except.ok p
        else Except.error ApiError.tokenExpired
      else Except.error ApiError.tokenInvalid

end TokenCodec

/-- Modelled from the spec: a stored user record: username, password
hash and role (CredentialStore data model, missing from the source
tree). -/
structure User where
  username : String
  passwordHash : Nat
  role : Role
  deriving DecidableEq, Repr

/-- Modelled from the spec: CredentialStore holds user records. -/
def CredentialStore := List User

/-- Modelled from the spec: the password hashing function applied before
comparison with the stored hash.  The concrete hash is irrelevant to the
claims; a simple fold stands in for it. -/
def hashPassword (s : String) : Nat :=
  s.data.foldl (fun a c => a * 31 + c.toNat) 7

/-- Modelled from the spec: CredentialStore failure kind; the issuer
translates it to `AuthenticationFailed`. -/
inductive CredError where
  | invalidCredentials
  deriving DecidableEq, Repr

/-- Look up a user record by username. -/
def lookupUser (store : CredentialStore) (username : String) : Option User :=
  store.find? (fun u => u.username == username)

/-- Modelled from the spec: `authenticate(username, password)` yields the
role, or fails with the identical `InvalidCredentials` error whether the
username is unknown or the password hash does not match. -/
def authenticate (store : CredentialStore) (username password : String) :
    Except CredError Role :=
  match lookupUser store username with
  | none => Except.error CredError.invalidCredentials
  | some u =>
      if u.passwordHash = hashPassword password then Except.ok u.role
      else Except.error CredError.invalidCredentials

/-- Modelled from the spec: a login request body; each field may be
absent. -/
structure LoginRequest where
  username : Option String
  password : Option String
  deriving DecidableEq, Repr

/-- Modelled from the spec: the access/refresh token pair minted on a
successful login. -/
structure TokenPair where
  accessToken : TokenString
  refreshToken : TokenString
  deriving DecidableEq, Repr

namespace TokenIssuer

/-- Modelled from the spec: `issue(username, password)`: fail with
`MalformedRequest` when either field is absent, before touching
CredentialStore; then authenticate; on `InvalidCredentials` fail with
`AuthenticationFailed`; on success encode one access and one refresh
token, both carrying the resolved role and the same subject
(TokenIssuer, missing from the source tree). -/
def issue (c : Codec) (store : CredentialStore) (now : Nat)
    (req : LoginRequest) : Except ApiError TokenPair :=
  match req.username, req.password with
  | some username, some password =>
      match authenticate store username password with
      | Except.error CredError.invalidCredentials =>
          Except.error ApiError.authenticationFailed
      | Except.ok role =>
          Except.ok
            { accessToken :=
                TokenCodec.encode c username role TokenKind.access now
                  c.accessTtl,
              refreshToken :=
                TokenCodec.encode c username role TokenKind.refresh now
                  c.refreshTtl }
  | _, _ => Except.error ApiError.malformedRequest

end TokenIssuer

namespace TokenRefresher

/-- Modelled from the spec: `refresh(token_string)`: fail with
`MissingCredential` when no bearer token is present; decode via
TokenCodec; if the kind is not `refresh`, fail with `WrongTokenType`;
otherwise mint exactly one new access token with the same subject and
role (TokenRefresher, missing from the source tree). -/
def refresh (c : Codec) (now : Nat) (bearer : Option TokenString) :
    Except ApiError TokenString :=
  match bearer with
  | none => Except.error ApiError.missingCredential
  | some ts =>
      match TokenCodec.decode c now ts with
      | Except.error e => Except.error e
      | Except.ok p =>
          if p.kind = TokenKind.refresh then
            Except.ok
              (TokenCodec.encode c p.subject p.role TokenKind.access now
                c.accessTtl)
          else Except.error ApiError.wrongTokenType

end TokenRefresher

/-- Modelled from the spec: the access-credential check every protected
route performs: a bearer token must be present, decode, and be of kind
`access`; a refresh token presented here fails with `WrongTokenType`. -/
def requireAccess (c : Codec) (now : Nat) (bearer : Option TokenString) :
    Except ApiError TokenPayload :=
  match bearer with
  | none => Except.error ApiError.missingCredential
  | some ts =>
      match TokenCodec.decode c now ts with
      | Except.error e => Except.error e
      | Except.ok p =>
          if p.kind = TokenKind.access then Except.ok p
          else Except.error ApiError.wrongTokenType

/-- Modelled from the spec: a genealogical record as the auth core sees
it: handle, gramps_id and the `private` flag. -/
structure Record where
  handle : String
  grampsId : String
  isPrivate : Bool
  deriving DecidableEq, Repr

namespace PrivacyFilter

/-- Modelled from the spec: `filter(role, records)`: a record with
`private = true` is kept iff `role >= owner` in the role order; all
non-private records pass unconditionally (PrivacyFilter, missing from
the source tree). -/
def filter (role : Role) (records : List Record) : List Record :=
  records.filter
    (fun r => !r.isPrivate || decide (roleRank Role.owner ≤ roleRank role))

end PrivacyFilter

/-- Wire response of the `POST /token` endpoint: status code and the
body as an association list of token fields (section 6). -/
def tokenEndpoint (c : Codec) (store : CredentialStore) (now : Nat)
    (req : LoginRequest) : Nat × List (String × TokenString) :=
  match TokenIssuer.issue c store now req with
  | Except.ok pair =>
      (200, [("access_token", pair.accessToken),
             ("refresh_token", pair.refreshToken)])
  | Except.error e => (errorStatus e, [])

/-- Wire response of the `POST /token/refresh` endpoint: on success the
body holds the single new access token and no refresh_token key. -/
def refreshEndpoint (c : Codec) (now : Nat) (bearer : Option TokenString) :
    Nat × List (String × TokenString) :=
  match TokenRefresher.refresh c now bearer with
  | Except.ok tok => (200, [("access_token", tok)])
  | Except.error e => (errorStatus e, [])

/-- Info value carried by an external job: a plain string, an exception
object, or Python None.  The job engine owns this representation. -/
inductive JobInfo where
  | text (s : String)
  | exc (name msg : String)
  | noneVal
  deriving DecidableEq, Repr

/-- Python `str()` applied to a job info value. -/
def pyStr : JobInfo → String
  | JobInfo.text s => s
  | JobInfo.exc name msg => name ++ "(" ++ msg ++ ")"
  | JobInfo.noneVal => "None"

/-- An external job as reported by the job engine: a state string and an
info value. -/
structure Job where
  state : String
  info : JobInfo
  deriving DecidableEq, Repr

/-- A Python value appearing in a JSON-ish response body. -/
inductive PyValue where
  | str (s : String)
  | obj (j : JobInfo)
  deriving DecidableEq, Repr

namespace TaskResource

/-- Embedding of `TaskResource.get` from
`gramps_webapi/api/resources/tasks.py`: query the external job engine by
identifier (`AsyncResult(task_id)`); when the engine reports no such
job, abort with 404 NOT_FOUND; otherwise return the dictionary
`{"state": task.state, "info": str(task.info)}`. -/
def get (engine : String → Option Job) (task_id : String) :
    Except ApiError (List (String × PyValue)) :=
  match engine task_id with
  | none => Except.error ApiError.notFound
  | some task =>
      Except.ok [("state", PyValue.str task.state),
                 ("info", PyValue.str (pyStr task.info))]

end TaskResource

/-- Wire response of the `GET /task/{id}` endpoint. -/
def taskEndpoint (engine : String → Option Job) (task_id : String) :
    Nat × List (String × PyValue) :=
  match TaskResource.get engine task_id with
  | Except.ok body => (200, body)
  | Except.error e => (errorStatus e, [])

/-- The public John Allen record of the test fixture. -/
def pubRec : Record :=
  { handle := "handle-john", grampsId := "person001", isPrivate := false }

/-- The private Jane Secret record of the test fixture. -/
def privRec : Record :=
  { handle := "handle-jane", grampsId := "person002", isPrivate := true }

/-- A concrete codec configuration used in witnesses. -/
def c0 : Codec := { secret := 7, accessTtl := 10, refreshTtl := 100 }

/-- The guest user of the test fixture. -/
def user0 : User :=
  { username := "user", passwordHash := hashPassword "123",
    role := Role.guest }

/-- The owner user of the test fixture. -/
def admin0 : User :=
  { username := "admin", passwordHash := hashPassword "123",
    role := Role.owner }

/-- The credential store of the test fixture. -/
def store0 : CredentialStore := [user0, admin0]

/-- A concrete access token for witnesses. -/
def tsAcc : TokenString :=
  TokenCodec.encode c0 "user" Role.guest TokenKind.access 0 c0.accessTtl

/-- The payload carried by `tsAcc`. -/
def payAcc : TokenPayload :=
  { subject := "user", role := Role.guest, kind := TokenKind.access,
    issuedAt := 0, expiresAt := 10 }

/-- A concrete refresh token for witnesses. -/
def tsRef : TokenString :=
  TokenCodec.encode c0 "user" Role.guest TokenKind.refresh 0 c0.refreshTtl

/-- The payload carried by `tsRef`. -/
def payRef : TokenPayload :=
  { subject := "user", role := Role.guest, kind := TokenKind.refresh,
    issuedAt := 0, expiresAt := 100 }

/-- A concrete finished job for witnesses. -/
def job0 : Job := { state := "SUCCESS", info := JobInfo.text "done" }

/-- A job engine knowing only the identifier `t1`. -/
def engine0 : String → Option Job :=
  fun task_id => if task_id = "t1" then some job0 else none

/-- A failed job whose info value is an exception object. -/
def jobExc : Job :=
  { state := "FAILURE", info := JobInfo.exc "ValueError" "boom" }

/-- A job engine knowing only the failed job under `t2`. -/
def engineExc : String → Option Job :=
  fun task_id => if task_id = "t2" then some jobExc else none

/-- The response body produced for the failed job `jobExc`. -/
def bodyExc : List (String × PyValue) :=
  [("state", PyValue.str jobExc.state),
   ("info", PyValue.str (pyStr jobExc.info))]

/-- C1: a record with `private = true` is in `PrivacyFilter.filter role
records` iff `role >= owner`, and every record with `private = false` is
always included; concretely a guest listing one public and one private
record receives only the public one, while an owner receives both. -/
theorem privacy_filter_policy :
    (∀ (role : Role) (records : List Record) (r : Record),
        r ∈ PrivacyFilter.filter role records ↔
          r ∈ records ∧
            (r.isPrivate = false ∨ roleRank Role.owner ≤ roleRank role))
    ∧ PrivacyFilter.filter Role.guest [pubRec, privRec] = [pubRec]
    ∧ PrivacyFilter.filter Role.owner [pubRec, privRec] =
        [pubRec, privRec] := by
  refine ⟨?_, by decide, by decide⟩
  intro role records r
  simp [PrivacyFilter.filter, List.mem_filter, Bool.or_eq_true,
    Bool.not_eq_true', decide_eq_true_eq]

/-- C9: `PrivacyFilter.filter` is idempotent: filtering an already
filtered list changes nothing. -/
theorem privacy_filter_idempotent (role : Role) (records : List Record) :
    PrivacyFilter.filter role (PrivacyFilter.filter role records) =
      PrivacyFilter.filter role records := by
  simp [PrivacyFilter.filter, List.filter_filter]

/-- C7: the `/token` response carries an `access_token` key iff it
carries a `refresh_token` key: both tokens are returned or neither. -/
theorem issue_atomicity (c : Codec) (store : CredentialStore) (now : Nat)
    (req : LoginRequest) :
    ("access_token" ∈ (tokenEndpoint c store now req).2.map Prod.fst) ↔
      ("refresh_token" ∈ (tokenEndpoint c store now req).2.map Prod.fst) := by
  unfold tokenEndpoint
  cases TokenIssuer.issue c store now req <;> simp

/-- C2: a decoded token of kind `access` makes `refresh` fail with
`WrongTokenType`, surfaced as 422 with no token minted; symmetrically a
decoded token of kind `refresh` fails the access-credential check. -/
theorem token_kind_asymmetry (c : Codec) (now : Nat) (ts : TokenString)
    (p : TokenPayload)
    (hdec : TokenCodec.decode c now ts = Except.ok p) :
    (p.kind = TokenKind.access →
      TokenRefresher.refresh c now (some ts) =
          Except.error ApiError.wrongTokenType
        ∧ refreshEndpoint c now (some ts) = (422, []))
    ∧ (p.kind = TokenKind.refresh →
        requireAccess c now (some ts) =
          Except.error ApiError.wrongTokenType) := by
  constructor
  · intro hk
    have h1 : TokenRefresher.refresh c now (some ts) =
        Except.error ApiError.wrongTokenType := by
      simp [TokenRefresher.refresh, hdec, hk]
    refine ⟨h1, ?_⟩
    simp [refreshEndpoint, h1, errorStatus]
  · intro hk
    simp [requireAccess, hdec, hk]

/-- Witness for C2 at a concrete codec and concrete tokens. -/
theorem token_kind_asymmetry_witness :
    refreshEndpoint c0 5 (some tsAcc) = (422, [])
    ∧ requireAccess c0 5 (some tsRef) =
        Except.error ApiError.wrongTokenType :=
  ⟨((token_kind_asymmetry c0 5 tsAcc payAcc rfl).1 rfl).2,
   (token_kind_asymmetry c0 5 tsRef payRef rfl).2 rfl⟩

/-- C3: a successful refresh with a valid token of kind `refresh`
returns 200 with exactly one new access token carrying the same subject
and role, and the response body has no `refresh_token` key. -/
theorem refresh_success (c : Codec) (now : Nat) (ts : TokenString)
    (p : TokenPayload)
    (hdec : TokenCodec.decode c now ts = Except.ok p)
    (hkind : p.kind = TokenKind.refresh) (httl : 0 < c.accessTtl) :
    TokenRefresher.refresh c now (some ts) =
        Except.ok
          (TokenCodec.encode c p.subject p.role TokenKind.access now
            c.accessTtl)
    ∧ refreshEndpoint c now (some ts) =
        (200, [("access_token",
                TokenCodec.encode c p.subject p.role TokenKind.access now
                  c.accessTtl)])
    ∧ TokenCodec.decode c now
          (TokenCodec.encode c p.subject p.role TokenKind.access now
            c.accessTtl) =
        Except.ok
          { subject := p.subject, role := p.role,
            kind := TokenKind.access, issuedAt := now,
            expiresAt := now + c.accessTtl }
    ∧ ∀ v : TokenString,
        ("refresh_token", v) ∉ (refreshEndpoint c now (some ts)).2 := by
  have h1 : TokenRefresher.refresh c now (some ts) =
      Except.ok
        (TokenCodec.encode c p.subject p.role TokenKind.access now
          c.accessTtl) := by
    simp [TokenRefresher.refresh, hdec, hkind]
  have h2 : refreshEndpoint c now (some ts) =
      (200, [("access_token",
              TokenCodec.encode c p.subject p.role TokenKind.access now
                c.accessTtl)]) := by
    simp [refreshEndpoint, h1]
  refine ⟨h1, h2, ?_, ?_⟩
  · unfold TokenCodec.encode TokenCodec.decode
    simp [Nat.lt_add_of_pos_right httl]
  · intro v
    rw [h2]
    simp

/-- Witness for C3 at a concrete refresh token. -/
theorem refresh_success_witness :
    refreshEndpoint c0 5 (some tsRef) =
      (200, [("access_token",
              TokenCodec.encode c0 payRef.subject payRef.role
                TokenKind.access 5 c0.accessTtl)]) :=
  (refresh_success c0 5 tsRef payRef rfl rfl (by decide)).2.1

/-- C5: a login request missing the username or the password field fails
with `MalformedRequest` (422), never `AuthenticationFailed`, and the
outcome is independent of the CredentialStore contents. -/
theorem missing_field_malformed (c : Codec) (store : CredentialStore)
    (now : Nat) (req : LoginRequest)
    (h : req.username = none ∨ req.password = none) :
    TokenIssuer.issue c store now req =
        Except.error ApiError.malformedRequest
    ∧ TokenIssuer.issue c store now req ≠
        Except.error ApiError.authenticationFailed
    ∧ tokenEndpoint c store now req = (422, [])
    ∧ ∀ store2 : CredentialStore,
        TokenIssuer.issue c store2 now req =
          TokenIssuer.issue c store now req := by
  obtain ⟨u, pw⟩ := req
  have h1 : ∀ st : CredentialStore,
      TokenIssuer.issue c st now ⟨u, pw⟩ =
        Except.error ApiError.malformedRequest := by
    intro st
    rcases h with h | h
    · simp only at h
      subst h
      rfl
    · simp only at h
      subst h
      cases u <;> rfl
  refine ⟨h1 store, ?_, ?_, fun st2 => (h1 st2).trans (h1 store).symm⟩
  · rw [h1 store]
    simp
  · simp [tokenEndpoint, h1 store, errorStatus]

/-- Witness for C5 at a request missing the username. -/
theorem missing_field_malformed_witness :
    tokenEndpoint c0 store0 0
        { username := none, password := some "123" } = (422, []) :=
  (missing_field_malformed c0 store0 0
      { username := none, password := some "123" } (Or.inl rfl)).2.2.1

/-- C6: an unknown username and a known username with a wrong password
both yield the identical `InvalidCredentials` error from `authenticate`,
and the identical `AuthenticationFailed` (403) response from the token
endpoint: the two causes are indistinguishable to the caller. -/
theorem invalid_credentials_indistinguishable (c : Codec)
    (store : CredentialStore) (now : Nat) (u1 p1 u2 p2 : String)
    (user : User)
    (h1 : lookupUser store u1 = none)
    (h2 : lookupUser store u2 = some user)
    (h3 : user.passwordHash ≠ hashPassword p2) :
    authenticate store u1 p1 = Except.error CredError.invalidCredentials
    ∧ authenticate store u2 p2 = Except.error CredError.invalidCredentials
    ∧ authenticate store u1 p1 = authenticate store u2 p2
    ∧ tokenEndpoint c store now ⟨some u1, some p1⟩ = (403, [])
    ∧ tokenEndpoint c store now ⟨some u1, some p1⟩ =
        tokenEndpoint c store now ⟨some u2, some p2⟩ := by
  have ha1 : authenticate store u1 p1 =
      Except.error CredError.invalidCredentials := by
    unfold authenticate
    rw [h1]
  have ha2 : authenticate store u2 p2 =
      Except.error CredError.invalidCredentials := by
    unfold authenticate
    rw [h2]
    simp [h3]
  have hi : ∀ (u p : String),
      authenticate store u p = Except.error CredError.invalidCredentials →
      tokenEndpoint c store now ⟨some u, some p⟩ = (403, []) := by
    intro u p ha
    simp [tokenEndpoint, TokenIssuer.issue, ha, errorStatus]
  refine ⟨ha1, ha2, ha1.trans ha2.symm, hi u1 p1 ha1, ?_⟩
  rw [hi u1 p1 ha1, hi u2 p2 ha2]

/-- Witness for C6 on the fixture store with an unknown user and a
wrong-password user. -/
theorem invalid_credentials_indistinguishable_witness :
    tokenEndpoint c0 store0 0 ⟨some "unknown", some "123"⟩ =
      tokenEndpoint c0 store0 0 ⟨some "user", some "234"⟩ :=
  (invalid_credentials_indistinguishable c0 store0 0 "unknown" "123"
      "user" "234" user0 (by decide) (by decide) (by decide)).2.2.2.2

/-- C8: for a registered `(username, password)` pair, `issue` succeeds
and decoding the returned access token yields the role CredentialStore
reports and the login username as subject. -/
theorem issue_roundtrip (c : Codec) (store : CredentialStore) (now : Nat)
    (username password : String) (user : User)
    (hu : lookupUser store username = some user)
    (hp : user.passwordHash = hashPassword password)
    (httl : 0 < c.accessTtl) :
    authenticate store username password = Except.ok user.role
    ∧ ∃ pair : TokenPair,
        TokenIssuer.issue c store now ⟨some username, some password⟩ =
            Except.ok pair
        ∧ TokenCodec.decode c now pair.accessToken =
            Except.ok
              { subject := username, role := user.role,
                kind := TokenKind.access, issuedAt := now,
                expiresAt := now + c.accessTtl } := by
  have ha : authenticate store username password = Except.ok user.role := by
    unfold authenticate
    rw [hu]
    simp [hp]
  refine ⟨ha,
    ⟨{ accessToken :=
         TokenCodec.encode c username user.role TokenKind.access now
           c.accessTtl,
       refreshToken :=
         TokenCodec.encode c username user.role TokenKind.refresh now
           c.refreshTtl }, ?_, ?_⟩⟩
  · simp [TokenIssuer.issue, ha]
  · unfold TokenCodec.encode TokenCodec.decode
    simp [Nat.lt_add_of_pos_right httl]

/-- Witness for C8 on the fixture store and the guest user. -/
theorem issue_roundtrip_witness :
    authenticate store0 "user" "123" = Except.ok user0.role :=
  (issue_roundtrip c0 store0 0 "user" "123" user0 (by decide) rfl
      (by decide)).1

/-- C4: when the job engine reports no job for an identifier,
`TaskResource.get` fails with `NotFound`, surfaced as 404; for a known
identifier it returns 200 with the state and info of the job. -/
theorem task_status_not_found (engine : String → Option Job)
    (task_id : String) :
    (engine task_id = none →
      TaskResource.get engine task_id = Except.error ApiError.notFound
      ∧ taskEndpoint engine task_id = (404, []))
    ∧ ∀ job : Job, engine task_id = some job →
        taskEndpoint engine task_id =
          (200, [("state", PyValue.str job.state),
                 ("info", PyValue.str (pyStr job.info))]) := by
  constructor
  · intro h
    have hg : TaskResource.get engine task_id =
        Except.error ApiError.notFound := by
      unfold TaskResource.get
      rw [h]
    refine ⟨hg, ?_⟩
    simp [taskEndpoint, hg, errorStatus]
  · intro job h
    simp [taskEndpoint, TaskResource.get, h]

/-- Witness for C4 at an identifier the engine does not know. -/
theorem task_status_not_found_witness :
    taskEndpoint engine0 "missing" = (404, []) :=
  ((task_status_not_found engine0 "missing").1 (by decide)).2

/-- C10: every successful `TaskResource.get` body has exactly the keys
`state` and `info`, and the value under `info` is a string, the result
of applying `str()` to the engine's info value. -/
theorem task_response_shape (engine : String → Option Job)
    (task_id : String) (body : List (String × PyValue))
    (h : TaskResource.get engine task_id = Except.ok body) :
    body.map Prod.fst = ["state", "info"]
    ∧ ∃ s : String, body.lookup "info" = some (PyValue.str s) := by
  unfold TaskResource.get at h
  cases he : engine task_id with
  | none =>
      rw [he] at h
      exact absurd h (by simp)
  | some job =>
      rw [he] at h
      injection h with h
      subst h
      exact ⟨rfl, pyStr job.info, rfl⟩

/-- Witness for C10 on a failed job whose info is an exception object:
the response still carries a string under `info`. -/
theorem task_response_shape_witness :
    bodyExc.map Prod.fst = ["state", "info"]
    ∧ ∃ s : String, bodyExc.lookup "info" = some (PyValue.str s) :=
  task_response_shape engineExc "t2" bodyExc rfl
